import Mathlib

/-!
Verification of the conductor voice-transcription adapter
(src/conductor/voice_transcriber.py).

The module is embedded shallowly:

* The configuration dictionary becomes the structures `VoiceCfg` and `Config`;
  a missing key is `none` and dictionary `get` with a default becomes
  `Option.getD`, mirroring the Python truthiness checks used by the source.
* The two collaborators become records of pure functions: `Bot` stands for the
  messaging client (`get_file`, `download_file`) and `TranscriptionService`
  stands for the OpenAI client call `client.audio.transcriptions.create`.
  Each fallible call returns `Except`, the error branch being the exception
  the Python call would raise.  A download failure may additionally report a
  partially written file, so that the existence-checked cleanup is exercised.
* The filesystem is a list of (path, contents) pairs threaded through the
  operation; `tempfile.mktemp` is modelled by passing the fresh name `tmpName`
  chosen for the call (mktemp guarantees the name does not exist when chosen,
  which appears as a freshness hypothesis where it matters).
* Side effects (log lines at their severities, collaborator calls, temp-file
  creation and deletion) are recorded in an event trace, so statements like
  "no warning is logged" or "no collaborator is contacted" are statable.
-/

namespace VoiceTranscriber

/-- Log severities used by the module. -/
inductive Severity
  | info
  | warning
  | error
deriving DecidableEq

/-- Observable events of one call: log lines, collaborator calls, the
temporary-file name acquisition and the cleanup deletion. -/
inductive Event
  | log (sev : Severity) (msg : String)
  | callGetFile (fileId : String)
  | mktempEv (path : String)
  | callDownload (filePath dest : String)
  | callCreate (apiKey model : String)
  | unlink (path : String)
deriving DecidableEq

/-- The filesystem: the files that currently exist, as (path, contents). -/
abbrev FS := List (String × String)

/-- Does a file exist at path p (Python Path.exists)? -/
def existsFile (fs : FS) (p : String) : Bool :=
  fs.any (fun kv => kv.1 = p)

/-- Read the contents of the file at p, if it exists (Python open / read). -/
def readFile (fs : FS) (p : String) : Option String :=
  (fs.find? (fun kv => kv.1 = p)).map (fun kv => kv.2)

/-- Write contents c at path p, replacing any previous file there. -/
def writeFile (fs : FS) (p c : String) : FS :=
  (p, c) :: fs.filter (fun kv => kv.1 ≠ p)

/-- Delete the file at p (Python Path.unlink). -/
def removeFile (fs : FS) (p : String) : FS :=
  fs.filter (fun kv => kv.1 ≠ p)

/-- The voice sub-mapping of the configuration.  Each field is optional:
`none` models an absent dictionary key. -/
structure VoiceCfg where
  enabled : Option Bool
  openai_api_key : Option String
  model : Option String
deriving DecidableEq

/-- The empty sub-mapping, the default of `config.get("voice", \x7b\x7d)`. -/
def emptyVoiceCfg : VoiceCfg := ⟨none, none, none⟩

/-- The configuration mapping; only the voice sub-mapping is read. -/
structure Config where
  voice : Option VoiceCfg
deriving DecidableEq

/-- Python truthiness of `voice_cfg.get("openai_api_key")`: false when the key
is absent or the empty string. -/
def strTruthy (s : Option String) : Bool :=
  match s with
  | none => false
  | some s => !s.isEmpty

/-- File metadata returned by the messaging client (`file.file_path`). -/
structure FileMeta where
  file_path : String
deriving DecidableEq

/-- The messaging client collaborator.  `get_file` resolves a voice file id to
metadata or raises.  `download_file` fetches the bytes of a remote file path
or raises; its error carries the exception message and, optionally, contents
partially written to the destination before the failure. -/
structure Bot where
  get_file : String → Except String FileMeta
  download_file : String → Except (String × Option String) String

/-- The transcription service collaborator: api key, model identifier and the
audio contents in, transcript text out, or an exception. -/
structure TranscriptionService where
  create : String → String → String → Except String String

/-- Python str.strip: drop leading and trailing whitespace.  (Executable
model of the standard strip, by structural recursion over the characters.) -/
def strip (s : String) : String :=
  String.mk (((s.data.dropWhile Char.isWhitespace).reverse.dropWhile
    Char.isWhitespace).reverse)

/-- Python slicing text[:100]: the first n characters of a string. -/
def takeChars (s : String) (n : Nat) : String :=
  String.mk (s.data.take n)

/-- Cleanup of the finally block: delete the temporary file if it exists.
Returns the filesystem and the trace extended with the deletion, if any. -/
def finallyCleanup (tmp : String) (fs : FS) (evs : List Event) :
    FS × List Event :=
  if existsFile fs tmp then (removeFile fs tmp, evs ++ [Event.unlink tmp])
  else (fs, evs)

/-- Embedding of `is_available(config)`: returns the boolean result together
with the trace of emitted log entries. -/
def is_available (has_openai : Bool) (config : Config) :
    Bool × List Event :=
  let voice_cfg := config.voice.getD emptyVoiceCfg
  if !(voice_cfg.enabled.getD false) then
    (false, [])
  else if !has_openai then
    (false, [Event.log Severity.warning
      "Voice enabled but openai package not installed. pip3 install openai"])
  else if !(strTruthy voice_cfg.openai_api_key) then
    (false, [Event.log Severity.warning
      "Voice enabled but conductor.telegram.voice.openai_api_key not set"])
  else
    (true, [])

/-- Embedding of `transcribe_voice(bot, voice_file_id, config)`.  `svc` is the
transcription service reached through the OpenAI client, `tmpName` the fresh
path produced by `tempfile.mktemp`, `fs` the filesystem at entry.  Returns the
Python return value (`none` for None), the filesystem at exit, and the trace.
Every raise inside the try block lands in the `except` clause, which logs the
error and returns None; the finally block then deletes the temporary file if
it exists. -/
def transcribe_voice (bot : Bot) (svc : TranscriptionService)
    (voice_file_id : String) (config : Config) (tmpName : String) (fs : FS) :
    Option String × FS × List Event :=
  let voice_cfg := config.voice.getD emptyVoiceCfg
  let api_key := voice_cfg.openai_api_key.getD ""
  let model := voice_cfg.model.getD "whisper-1"
  if api_key.isEmpty then
    (none, fs, [])
  else
    match bot.get_file voice_file_id with
    | Except.error e =>
        (none, fs, [Event.callGetFile voice_file_id,
          Event.log Severity.error ("Voice transcription failed: " ++ e)])
    | Except.ok file =>
      let ev0 : List Event :=
        [Event.callGetFile voice_file_id, Event.mktempEv tmpName]
      match bot.download_file file.file_path with
      | Except.error pe =>
          let fs1 := match pe.2 with
            | none => fs
            | some c => writeFile fs tmpName c
          let evs := ev0 ++ [Event.callDownload file.file_path tmpName,
            Event.log Severity.error ("Voice transcription failed: " ++ pe.1)]
          let c := finallyCleanup tmpName fs1 evs
          (none, c.1, c.2)
      | Except.ok contents =>
          let fs1 := writeFile fs tmpName contents
          let ev1 := ev0 ++ [Event.callDownload file.file_path tmpName,
            Event.log Severity.info ("Voice file downloaded ("
              ++ toString contents.length ++ " bytes), transcribing with "
              ++ model)]
          match readFile fs1 tmpName with
          | none =>
              let evs := ev1 ++ [Event.log Severity.error
                "Voice transcription failed: No such file or directory"]
              let c := finallyCleanup tmpName fs1 evs
              (none, c.1, c.2)
          | some audio =>
            match svc.create api_key model audio with
            | Except.error e =>
                let evs := ev1 ++ [Event.callCreate api_key model,
                  Event.log Severity.error
                    ("Voice transcription failed: " ++ e)]
                let c := finallyCleanup tmpName fs1 evs
                (none, c.1, c.2)
            | Except.ok t =>
                let text := strip t
                let ev2 := ev1 ++ [Event.callCreate api_key model,
                  Event.log Severity.info ("Transcription result ("
                    ++ toString text.length ++ " chars): "
                    ++ takeChars text 100)]
                let c := finallyCleanup tmpName fs1 ev2
                ((if text.isEmpty then none else some text), c.1, c.2)

/-- A messaging client whose calls all succeed, downloading the audio blob
"audio-bytes". -/
def mockBot : Bot :=
  ⟨fun _ => Except.ok ⟨"voice/file_7.ogg"⟩, fun _ => Except.ok "audio-bytes"⟩

/-- A messaging client whose metadata resolution raises. -/
def failGetFileBot : Bot :=
  ⟨fun _ => Except.error "network down", fun _ => Except.ok "audio-bytes"⟩

/-- A messaging client whose download raises after partially writing the
destination file. -/
def failDownloadBot : Bot :=
  ⟨fun _ => Except.ok ⟨"voice/file_7.ogg"⟩,
   fun _ => Except.error ("timeout", some "trunc")⟩

/-- A deterministic transcription service returning text padded with
whitespace. -/
def mockSvc : TranscriptionService :=
  ⟨fun _ _ _ => Except.ok "  hello world  "⟩

/-- A transcription service returning the empty transcript. -/
def emptySvc : TranscriptionService :=
  ⟨fun _ _ _ => Except.ok ""⟩

/-- A transcription service that raises. -/
def failSvc : TranscriptionService :=
  ⟨fun _ _ _ => Except.error "quota exceeded"⟩

/-- A fully configured Config: enabled, with an api key, no model override. -/
def mockCfg : Config :=
  ⟨some ⟨some true, some "sk-test", none⟩⟩

/-- A Config whose voice sub-mapping lacks the api key. -/
def noKeyCfg : Config :=
  ⟨some ⟨some true, none, some "gpt-4o-transcribe"⟩⟩

/-- A Config with voice transcription switched off. -/
def disabledCfg : Config := ⟨some ⟨some false, some "sk-test", none⟩⟩

/-- Deleting a file makes it not exist. -/
theorem existsFile_removeFile (fs : FS) (p : String) :
    existsFile (removeFile fs p) p = false := by
  simp [existsFile, removeFile, List.any_eq_true, List.mem_filter]

/-- Unfolding of removeFile on a cons cell whose key is deleted. -/
theorem removeFile_cons_eq (kv : String × String) (t : FS) (p : String)
    (h : kv.1 = p) : removeFile (kv :: t) p = removeFile t p := by
  simp [removeFile, List.filter_cons, h]

/-- Unfolding of removeFile on a cons cell whose key is kept. -/
theorem removeFile_cons_ne (kv : String × String) (t : FS) (p : String)
    (h : kv.1 ≠ p) : removeFile (kv :: t) p = kv :: removeFile t p := by
  simp [removeFile, List.filter_cons, h]

/-- Unfolding of existsFile on a cons cell. -/
theorem existsFile_cons (kv : String × String) (t : FS) (q : String) :
    existsFile (kv :: t) q = (decide (kv.1 = q) || existsFile t q) := by
  simp [existsFile, List.any_cons]

/-- Deleting one file leaves the existence of any other file unchanged. -/
theorem existsFile_removeFile_ne (fs : FS) (p q : String) (h : q ≠ p) :
    existsFile (removeFile fs p) q = existsFile fs q := by
  induction fs with
  | nil => rfl
  | cons kv t ih =>
    by_cases hk : kv.1 = p
    · rw [removeFile_cons_eq kv t p hk, ih, existsFile_cons]
      have hkq : decide (kv.1 = q) = false := by
        simp only [decide_eq_false_iff_not]
        exact fun hq => h (hq.symm.trans hk)
      rw [hkq, Bool.false_or]
    · rw [removeFile_cons_ne kv t p hk, existsFile_cons, existsFile_cons, ih]

/-- Writing a file makes it exist. -/
theorem existsFile_writeFile (fs : FS) (p c : String) :
    existsFile (writeFile fs p c) p = true := by
  simp [existsFile, writeFile]

/-- Writing one file leaves the existence of any other file unchanged. -/
theorem existsFile_writeFile_ne (fs : FS) (p q c : String) (h : q ≠ p) :
    existsFile (writeFile fs p c) q = existsFile fs q := by
  have : writeFile fs p c = (p, c) :: removeFile fs p := rfl
  rw [this]
  simp [existsFile, Ne.symm h]
  have := existsFile_removeFile_ne fs p q h
  simp [existsFile] at this
  exact this

/-- Reading back a freshly written file yields its contents. -/
theorem readFile_writeFile (fs : FS) (p c : String) :
    readFile (writeFile fs p c) p = some c := by
  simp [readFile, writeFile, List.find?]

/-- After the finally-block cleanup the temporary file never exists. -/
theorem existsFile_finallyCleanup (tmp : String) (fs : FS) (evs : List Event) :
    existsFile (finallyCleanup tmp fs evs).1 tmp = false := by
  unfold finallyCleanup
  by_cases h : existsFile fs tmp = true
  · simp [h, existsFile_removeFile]
  · simp at h
    simp [h]

/-- The cleanup leaves the existence of any other file unchanged. -/
theorem existsFile_finallyCleanup_ne (tmp : String) (fs : FS)
    (evs : List Event) (q : String) (h : q ≠ tmp) :
    existsFile (finallyCleanup tmp fs evs).1 q = existsFile fs q := by
  unfold finallyCleanup
  by_cases hx : existsFile fs tmp = true
  · simp [hx, existsFile_removeFile_ne fs tmp q h]
  · simp at hx
    simp [hx]

/-- The cleanup only ever appends to the event trace. -/
theorem finallyCleanup_trace (tmp : String) (fs : FS) (evs : List Event)
    (e : Event) (h : e ∈ evs) : e ∈ (finallyCleanup tmp fs evs).2 := by
  unfold finallyCleanup
  by_cases hx : existsFile fs tmp = true
  · simp [hx, h]
  · simp at hx
    simp [hx, h]

/-- Whenever the temporary file name is fresh at entry (the guarantee of
tempfile.mktemp), it does not exist in the filesystem at exit, on every path
through transcribe_voice. -/
theorem transcribe_tmp_gone (bot : Bot) (svc : TranscriptionService)
    (voice_file_id : String) (config : Config) (tmpName : String) (fs : FS)
    (h : existsFile fs tmpName = false) :
    existsFile (transcribe_voice bot svc voice_file_id config tmpName fs).2.1
      tmpName = false := by
  simp only [transcribe_voice]
  split
  · exact h
  split
  · exact h
  split
  · simp [existsFile_finallyCleanup]
  split
  · simp [existsFile_finallyCleanup]
  · split
    · simp [existsFile_finallyCleanup]
    · simp [existsFile_finallyCleanup]

/-- A call to transcribe_voice touches no file other than its temporary
file. -/
theorem transcribe_preserves_ne (bot : Bot) (svc : TranscriptionService)
    (voice_file_id : String) (config : Config) (tmpName : String) (fs : FS)
    (q : String) (h : q ≠ tmpName) :
    existsFile (transcribe_voice bot svc voice_file_id config tmpName fs).2.1 q
      = existsFile fs q := by
  simp only [transcribe_voice]
  split
  · rfl
  split
  · rfl
  split
  · simp only [existsFile_finallyCleanup_ne _ _ _ _ h]
    split
    · rfl
    · exact existsFile_writeFile_ne fs tmpName q _ h
  split
  · simp only [existsFile_finallyCleanup_ne _ _ _ _ h]
    exact existsFile_writeFile_ne fs tmpName q _ h
  · split
    · simp only [existsFile_finallyCleanup_ne _ _ _ _ h]
      exact existsFile_writeFile_ne fs tmpName q _ h
    · simp only [existsFile_finallyCleanup_ne _ _ _ _ h]
      exact existsFile_writeFile_ne fs tmpName q _ h

/-- The returned value of transcribe_voice depends only on the collaborators,
the file id and the configuration, not on the temporary name chosen nor on
the filesystem at entry. -/
theorem transcribe_fst_indep (bot : Bot) (svc : TranscriptionService)
    (voice_file_id : String) (config : Config) (tmp1 tmp2 : String)
    (fs1 fs2 : FS) :
    (transcribe_voice bot svc voice_file_id config tmp1 fs1).1
      = (transcribe_voice bot svc voice_file_id config tmp2 fs2).1 := by
  by_cases hkey :
      ((config.voice.getD emptyVoiceCfg).openai_api_key.getD "").isEmpty = true
  · simp [transcribe_voice, hkey]
  · cases hg : bot.get_file voice_file_id with
    | error e => simp [transcribe_voice, hkey, hg]
    | ok file =>
      cases hd : bot.download_file file.file_path with
      | error pe => simp [transcribe_voice, hkey, hg, hd]
      | ok contents =>
        cases hc : svc.create
            ((config.voice.getD emptyVoiceCfg).openai_api_key.getD "")
            ((config.voice.getD emptyVoiceCfg).model.getD "whisper-1")
            contents with
        | error e =>
            simp [transcribe_voice, hkey, hg, hd, readFile_writeFile, hc]
        | ok t =>
            simp [transcribe_voice, hkey, hg, hd, readFile_writeFile, hc]

/-- transcribe_voice never returns the empty string: the empty transcript is
mapped to None. -/
theorem transcribe_fst_ne_some_empty (bot : Bot) (svc : TranscriptionService)
    (voice_file_id : String) (config : Config) (tmpName : String) (fs : FS) :
    (transcribe_voice bot svc voice_file_id config tmpName fs).1
      ≠ some "" := by
  simp only [transcribe_voice]
  split
  · simp
  split
  · simp
  split
  · simp
  split
  · simp
  · split
    · simp
    · split
      · simp
      · rename_i htext
        simp only [ne_eq, Option.some.injEq]
        intro hcontra
        rw [hcontra] at htext
        exact absurd htext (by decide)

/-- Past the api-key guard the messaging client is always contacted: the
metadata-resolution call is in the trace on every path. -/
theorem callGetFile_mem (bot : Bot) (svc : TranscriptionService)
    (voice_file_id : String) (config : Config) (tmpName : String) (fs : FS)
    (hkey : ((config.voice.getD emptyVoiceCfg).openai_api_key.getD
      "").isEmpty = false) :
    Event.callGetFile voice_file_id
      ∈ (transcribe_voice bot svc voice_file_id config tmpName fs).2.2 := by
  simp only [transcribe_voice]
  split
  · simp_all
  split
  · simp
  split
  · refine finallyCleanup_trace _ _ _ _ ?_
    simp
  split
  · refine finallyCleanup_trace _ _ _ _ ?_
    simp
  · split
    · refine finallyCleanup_trace _ _ _ _ ?_
      simp
    · refine finallyCleanup_trace _ _ _ _ ?_
      simp

/-- When resolution and download succeed, the transcription service is called
with the configured api key and model; the call is in the trace whether the
service succeeds or raises. -/
theorem callCreate_mem (bot : Bot) (svc : TranscriptionService)
    (voice_file_id : String) (config : Config) (tmpName : String) (fs : FS)
    (file : FileMeta) (contents : String)
    (hkey : ((config.voice.getD emptyVoiceCfg).openai_api_key.getD
      "").isEmpty = false)
    (hg : bot.get_file voice_file_id = Except.ok file)
    (hd : bot.download_file file.file_path = Except.ok contents) :
    Event.callCreate ((config.voice.getD emptyVoiceCfg).openai_api_key.getD "")
        ((config.voice.getD emptyVoiceCfg).model.getD "whisper-1")
      ∈ (transcribe_voice bot svc voice_file_id config tmpName fs).2.2 := by
  cases hc : svc.create
      ((config.voice.getD emptyVoiceCfg).openai_api_key.getD "")
      ((config.voice.getD emptyVoiceCfg).model.getD "whisper-1") contents with
  | error e =>
      simp only [transcribe_voice, hkey, hg, hd, readFile_writeFile, hc]
      simp
      refine finallyCleanup_trace _ _ _ _ ?_
      simp
  | ok t =>
      simp only [transcribe_voice, hkey, hg, hd, readFile_writeFile, hc]
      simp
      refine finallyCleanup_trace _ _ _ _ ?_
      simp

/-- Python truthiness of the api-key entry holds exactly for a present,
non-empty string. -/
theorem strTruthy_iff (o : Option String) :
    strTruthy o = true ↔ ∃ s, o = some s ∧ s ≠ "" := by
  cases o with
  | none => simp [strTruthy]
  | some s =>
    cases hb : s.isEmpty with
    | true =>
      have hs : s = "" := (String.isEmpty_iff s).mp hb
      subst hs
      rw [show strTruthy (some "") = false from rfl]
      simp
    | false =>
      have hne : s ≠ "" := fun hs => by
        rw [hs] at hb
        exact absurd hb (by decide)
      simp [strTruthy, hb, hne]

/-- A truthy api-key entry yields a non-empty string under the default used
by transcribe_voice. -/
theorem strTruthy_getD (o : Option String) (h : strTruthy o = true) :
    (o.getD "").isEmpty = false := by
  cases o with
  | none => simp [strTruthy] at h
  | some s => simpa [strTruthy] using h

/-- The boolean returned by is_available, characterised by the three checks
of the source, with the key check as the source writes it. -/
theorem is_available_fst_true (has_openai : Bool) (config : Config) :
    (is_available has_openai config).1 = true ↔
      ((config.voice.getD emptyVoiceCfg).enabled.getD false = true ∧
       has_openai = true ∧
       strTruthy (config.voice.getD emptyVoiceCfg).openai_api_key = true) := by
  unfold is_available
  by_cases h1 : (config.voice.getD emptyVoiceCfg).enabled.getD false <;>
    by_cases h2 : has_openai <;>
      by_cases h3 :
          strTruthy (config.voice.getD emptyVoiceCfg).openai_api_key <;>
        simp [h1, h2, h3]

/-- C1: if any step after the api-key check fails (metadata resolution,
download, transcription request or result decoding), the failure is caught
inside transcribe_voice, a log entry at error severity is emitted, and None
is returned.  The embedding is a total function, so no exception can
propagate to the caller on any input. -/
theorem transcribe_voice_failure_is_caught (bot : Bot)
    (svc : TranscriptionService) (voice_file_id : String) (config : Config)
    (tmpName : String) (fs : FS)
    (hkey : ((config.voice.getD emptyVoiceCfg).openai_api_key.getD
      "").isEmpty = false)
    (hfail :
      (∃ e, bot.get_file voice_file_id = Except.error e) ∨
      (∃ file pe, bot.get_file voice_file_id = Except.ok file ∧
        bot.download_file file.file_path = Except.error pe) ∨
      (∃ file contents e, bot.get_file voice_file_id = Except.ok file ∧
        bot.download_file file.file_path = Except.ok contents ∧
        svc.create ((config.voice.getD emptyVoiceCfg).openai_api_key.getD "")
          ((config.voice.getD emptyVoiceCfg).model.getD "whisper-1") contents
          = Except.error e)) :
    (transcribe_voice bot svc voice_file_id config tmpName fs).1 = none ∧
    ∃ m, Event.log Severity.error m
      ∈ (transcribe_voice bot svc voice_file_id config tmpName fs).2.2 := by
  rcases hfail with ⟨e, hg⟩ | ⟨file, pe, hg, hd⟩ |
    ⟨file, contents, e, hg, hd, hc⟩
  · refine ⟨by simp [transcribe_voice, hkey, hg], ?_⟩
    exact ⟨"Voice transcription failed: " ++ e,
      by simp [transcribe_voice, hkey, hg]⟩
  · refine ⟨by simp [transcribe_voice, hkey, hg, hd], ?_⟩
    refine ⟨"Voice transcription failed: " ++ pe.1, ?_⟩
    simp only [transcribe_voice, hkey, hg, hd]
    simp
    refine finallyCleanup_trace _ _ _ _ ?_
    simp
  · refine ⟨by simp [transcribe_voice, hkey, hg, hd, readFile_writeFile, hc],
      ?_⟩
    refine ⟨"Voice transcription failed: " ++ e, ?_⟩
    simp only [transcribe_voice, hkey, hg, hd]
    simp [readFile_writeFile, hc]
    refine finallyCleanup_trace _ _ _ _ ?_
    simp

/-- Witness for C1: a failing metadata resolution is caught and logged. -/
theorem transcribe_voice_failure_is_caught_witness :
    (transcribe_voice failGetFileBot mockSvc "file-id" mockCfg "tmp_a.ogg"
      []).1 = none ∧
    ∃ m, Event.log Severity.error m
      ∈ (transcribe_voice failGetFileBot mockSvc "file-id" mockCfg "tmp_a.ogg"
          []).2.2 :=
  transcribe_voice_failure_is_caught failGetFileBot mockSvc "file-id" mockCfg
    "tmp_a.ogg" [] rfl (Or.inl ⟨"network down", rfl⟩)

/-- C2: on every exit path of transcribe_voice the temporary file chosen for
the call (fresh at entry, as tempfile.mktemp guarantees) does not exist once
the call returns: the existence-checked cleanup deletes it whenever it was
created. -/
theorem transcribe_voice_tmp_removed (bot : Bot) (svc : TranscriptionService)
    (voice_file_id : String) (config : Config) (tmpName : String) (fs : FS)
    (hfresh : existsFile fs tmpName = false) :
    existsFile (transcribe_voice bot svc voice_file_id config tmpName fs).2.1
      tmpName = false :=
  transcribe_tmp_gone bot svc voice_file_id config tmpName fs hfresh

/-- Witness for C2: a download that fails after a partial write still leaves
no temporary file behind. -/
theorem transcribe_voice_tmp_removed_witness :
    existsFile ([] : FS) "tmp_a.ogg" = false ∧
    existsFile (transcribe_voice failDownloadBot mockSvc "file-id" mockCfg
      "tmp_a.ogg" []).2.1 "tmp_a.ogg" = false :=
  ⟨rfl, transcribe_voice_tmp_removed failDownloadBot mockSvc "file-id" mockCfg
    "tmp_a.ogg" [] rfl⟩

/-- C3: is_available returns true iff voice.enabled is true, the openai
library is loadable, and voice.openai_api_key is a present, non-empty
string. -/
theorem is_available_iff (has_openai : Bool) (config : Config) :
    (is_available has_openai config).1 = true ↔
      ((config.voice.getD emptyVoiceCfg).enabled.getD false = true ∧
       has_openai = true ∧
       ∃ s, (config.voice.getD emptyVoiceCfg).openai_api_key = some s ∧
         s ≠ "") := by
  rw [is_available_fst_true, strTruthy_iff]

/-- C4: when the transcription service returns text, transcribe_voice
returns the whitespace-stripped text if it is non-empty and None otherwise;
transcribe_voice never returns the empty string. -/
theorem transcribe_voice_trim_semantics (bot : Bot)
    (svc : TranscriptionService) (voice_file_id : String) (config : Config)
    (tmpName : String) (fs : FS) (file : FileMeta) (contents t : String)
    (hkey : ((config.voice.getD emptyVoiceCfg).openai_api_key.getD
      "").isEmpty = false)
    (hg : bot.get_file voice_file_id = Except.ok file)
    (hd : bot.download_file file.file_path = Except.ok contents)
    (hc : svc.create ((config.voice.getD emptyVoiceCfg).openai_api_key.getD "")
      ((config.voice.getD emptyVoiceCfg).model.getD "whisper-1") contents
      = Except.ok t) :
    (transcribe_voice bot svc voice_file_id config tmpName fs).1
      = (if (strip t).isEmpty then none else some (strip t)) ∧
    ∀ (bot2 : Bot) (svc2 : TranscriptionService) (id2 : String)
      (cfg2 : Config) (tmp2 : String) (fs2 : FS),
      (transcribe_voice bot2 svc2 id2 cfg2 tmp2 fs2).1 ≠ some "" := by
  constructor
  · simp [transcribe_voice, hkey, hg, hd, readFile_writeFile, hc]
  · intro bot2 svc2 id2 cfg2 tmp2 fs2
    exact transcribe_fst_ne_some_empty bot2 svc2 id2 cfg2 tmp2 fs2

/-- Witness for C4: a service response of "  hello world  " yields
"hello world". -/
theorem transcribe_voice_trim_semantics_witness :
    (transcribe_voice mockBot mockSvc "file-id" mockCfg "tmp_a.ogg" []).1
      = (if (strip "  hello world  ").isEmpty then none
          else some (strip "  hello world  ")) ∧
    ∀ (bot2 : Bot) (svc2 : TranscriptionService) (id2 : String)
      (cfg2 : Config) (tmp2 : String) (fs2 : FS),
      (transcribe_voice bot2 svc2 id2 cfg2 tmp2 fs2).1 ≠ some "" :=
  transcribe_voice_trim_semantics mockBot mockSvc "file-id" mockCfg "tmp_a.ogg"
    [] ⟨"voice/file_7.ogg"⟩ "audio-bytes" "  hello world  " rfl rfl rfl rfl

/-- C5: with an empty or missing api key, transcribe_voice returns None
immediately: the filesystem is unchanged and the trace is empty, so no
collaborator is contacted and no temporary file is created. -/
theorem transcribe_voice_empty_key_early_return (bot : Bot)
    (svc : TranscriptionService) (voice_file_id : String) (config : Config)
    (tmpName : String) (fs : FS)
    (hkey : ((config.voice.getD emptyVoiceCfg).openai_api_key.getD
      "").isEmpty = true) :
    transcribe_voice bot svc voice_file_id config tmpName fs
      = (none, fs, []) := by
  simp [transcribe_voice, hkey]

/-- Witness for C5: a configuration missing the api key returns None with
the pre-existing state untouched. -/
theorem transcribe_voice_empty_key_early_return_witness :
    transcribe_voice mockBot mockSvc "file-id" noKeyCfg "tmp_a.ogg"
      [("keep.txt", "data")] = (none, [("keep.txt", "data")], []) :=
  transcribe_voice_empty_key_early_return mockBot mockSvc "file-id" noKeyCfg
    "tmp_a.ogg" [("keep.txt", "data")] rfl

/-- C6: when voice.enabled is false, is_available returns false with an
empty trace: the disabled case emits no warning log entry. -/
theorem is_available_disabled_silent (has_openai : Bool) (config : Config)
    (hd : (config.voice.getD emptyVoiceCfg).enabled.getD false = false) :
    is_available has_openai config = (false, []) := by
  simp [is_available, hd]

/-- Witness for C6: a disabled configuration with dependency and key still
present returns false silently. -/
theorem is_available_disabled_silent_witness :
    is_available true disabledCfg = (false, []) :=
  is_available_disabled_silent true disabledCfg rfl

/-- C7: the model submitted to the transcription service is voice.model when
that key is present and the default "whisper-1" when it is absent. -/
theorem transcribe_voice_model_selection (bot : Bot)
    (svc : TranscriptionService) (voice_file_id : String) (config : Config)
    (tmpName : String) (fs : FS) (file : FileMeta) (contents : String)
    (hkey : ((config.voice.getD emptyVoiceCfg).openai_api_key.getD
      "").isEmpty = false)
    (hg : bot.get_file voice_file_id = Except.ok file)
    (hd : bot.download_file file.file_path = Except.ok contents) :
    ((config.voice.getD emptyVoiceCfg).model = none →
      Event.callCreate
        ((config.voice.getD emptyVoiceCfg).openai_api_key.getD "") "whisper-1"
        ∈ (transcribe_voice bot svc voice_file_id config tmpName fs).2.2) ∧
    (∀ m, (config.voice.getD emptyVoiceCfg).model = some m →
      Event.callCreate
        ((config.voice.getD emptyVoiceCfg).openai_api_key.getD "") m
        ∈ (transcribe_voice bot svc voice_file_id config tmpName fs).2.2) := by
  constructor
  · intro hm
    have h := callCreate_mem bot svc voice_file_id config tmpName fs file
      contents hkey hg hd
    rw [hm] at h
    simpa using h
  · intro m hm
    have h := callCreate_mem bot svc voice_file_id config tmpName fs file
      contents hkey hg hd
    rw [hm] at h
    simpa using h

/-- Witness for C7: with no voice.model entry the service is called with
"whisper-1". -/
theorem transcribe_voice_model_selection_witness :
    Event.callCreate "sk-test" "whisper-1"
      ∈ (transcribe_voice mockBot mockSvc "file-id" mockCfg "tmp_a.ogg"
          []).2.2 :=
  (transcribe_voice_model_selection mockBot mockSvc "file-id" mockCfg
    "tmp_a.ogg" [] ⟨"voice/file_7.ogg"⟩ "audio-bytes" rfl rfl rfl).1 rfl

/-- C8: with deterministic collaborators, two successive calls with the same
file id and configuration return the same result, and afterwards neither
call's temporary file exists. -/
theorem transcribe_voice_idempotent (bot : Bot) (svc : TranscriptionService)
    (voice_file_id : String) (config : Config) (tmp1 tmp2 : String) (fs : FS)
    (h1 : existsFile fs tmp1 = false)
    (h2 : existsFile
      (transcribe_voice bot svc voice_file_id config tmp1 fs).2.1 tmp2
      = false) :
    (transcribe_voice bot svc voice_file_id config tmp2
        (transcribe_voice bot svc voice_file_id config tmp1 fs).2.1).1
      = (transcribe_voice bot svc voice_file_id config tmp1 fs).1 ∧
    existsFile (transcribe_voice bot svc voice_file_id config tmp2
        (transcribe_voice bot svc voice_file_id config tmp1 fs).2.1).2.1 tmp1
      = false ∧
    existsFile (transcribe_voice bot svc voice_file_id config tmp2
        (transcribe_voice bot svc voice_file_id config tmp1 fs).2.1).2.1 tmp2
      = false := by
  refine ⟨transcribe_fst_indep bot svc voice_file_id config tmp2 tmp1 _ fs,
    ?_, transcribe_tmp_gone bot svc voice_file_id config tmp2 _ h2⟩
  by_cases heq : tmp1 = tmp2
  · subst heq
    exact transcribe_tmp_gone bot svc voice_file_id config tmp1 _ h2
  · rw [transcribe_preserves_ne bot svc voice_file_id config tmp2 _ tmp1 heq]
    exact transcribe_tmp_gone bot svc voice_file_id config tmp1 fs h1

/-- Witness for C8: two successive calls with the deterministic mocks agree
and leave no residual temporary files. -/
theorem transcribe_voice_idempotent_witness :
    existsFile ([] : FS) "tmp_a.ogg" = false ∧
    existsFile (transcribe_voice mockBot mockSvc "file-id" mockCfg "tmp_a.ogg"
      []).2.1 "tmp_b.ogg" = false ∧
    ((transcribe_voice mockBot mockSvc "file-id" mockCfg "tmp_b.ogg"
        (transcribe_voice mockBot mockSvc "file-id" mockCfg "tmp_a.ogg"
          []).2.1).1
      = (transcribe_voice mockBot mockSvc "file-id" mockCfg "tmp_a.ogg" []).1 ∧
    existsFile (transcribe_voice mockBot mockSvc "file-id" mockCfg "tmp_b.ogg"
        (transcribe_voice mockBot mockSvc "file-id" mockCfg "tmp_a.ogg"
          []).2.1).2.1 "tmp_a.ogg" = false ∧
    existsFile (transcribe_voice mockBot mockSvc "file-id" mockCfg "tmp_b.ogg"
        (transcribe_voice mockBot mockSvc "file-id" mockCfg "tmp_a.ogg"
          []).2.1).2.1 "tmp_b.ogg" = false) :=
  ⟨rfl, rfl, transcribe_voice_idempotent mockBot mockSvc "file-id" mockCfg
    "tmp_a.ogg" "tmp_b.ogg" [] rfl rfl⟩

/-- C9: a configuration with no voice section at all makes is_available
return false without logging, and transcribe_voice return None immediately
with an unchanged filesystem and an empty trace: missing sub-mappings
default to empty instead of raising a lookup error. -/
theorem voice_section_missing_defaults (has_openai : Bool) (bot : Bot)
    (svc : TranscriptionService) (voice_file_id tmpName : String) (fs : FS) :
    is_available has_openai (Config.mk none) = (false, []) ∧
    transcribe_voice bot svc voice_file_id (Config.mk none) tmpName fs
      = (none, fs, []) :=
  ⟨rfl, rfl⟩

/-- C10: whenever is_available returns true, the independent api-key
re-check inside transcribe_voice passes on the same configuration: the key
defaulted to "" is non-empty and the early return is not taken, so the
metadata-resolution call is reached. -/
theorem is_available_implies_key_guard_passes (has_openai : Bool)
    (config : Config) (bot : Bot) (svc : TranscriptionService)
    (voice_file_id tmpName : String) (fs : FS)
    (ha : (is_available has_openai config).1 = true) :
    ((config.voice.getD emptyVoiceCfg).openai_api_key.getD "").isEmpty
      = false ∧
    Event.callGetFile voice_file_id
      ∈ (transcribe_voice bot svc voice_file_id config tmpName fs).2.2 := by
  have hkey := strTruthy_getD _
    ((is_available_fst_true has_openai config).mp ha).2.2
  exact ⟨hkey,
    callGetFile_mem bot svc voice_file_id config tmpName fs hkey⟩

/-- Witness for C10: the fully configured mock passes is_available and the
guard inside transcribe_voice. -/
theorem is_available_implies_key_guard_passes_witness :
    (is_available true mockCfg).1 = true ∧
    (((mockCfg.voice.getD emptyVoiceCfg).openai_api_key.getD "").isEmpty
      = false ∧
    Event.callGetFile "file-id"
      ∈ (transcribe_voice mockBot mockSvc "file-id" mockCfg "tmp_a.ogg"
          []).2.2) :=
  ⟨rfl, is_available_implies_key_guard_passes true mockCfg mockBot mockSvc
    "file-id" "tmp_a.ogg" [] rfl⟩

end VoiceTranscriber
